import Mathlib

/-
Verification development for the ai-saathi intent-resolution and
response-synthesis core.

The repository source (src/lib/ai/prompts.py) holds three prompt templates
(INTENT_PROMPT, EARNINGS_PROMPT, DISPUTE_PROMPT) and the fallback-response
table (FALLBACK_RESPONSES); those are embedded verbatim below.  The
surrounding components (PromptRenderer, IntentClassifier,
ResponseSynthesizer, FallbackResolver, Pipeline) are not present in the
source tree; they are modelled from the specification, each such
definition carrying a doc comment that starts `Modelled from the spec:`.
-/

namespace AiSaathi

/-- Embedded from src/lib/ai/prompts.py: the intent-classification prompt
template `INTENT_PROMPT` (a Python triple-quoted string; literal braces of
the JSON example are part of the text). -/
def INTENT_PROMPT : String :=
  "\nYou are Saathi, AI assistant for Indian gig workers (Zomato/Swiggy/Blinkit/Rapido/Urban Company).\nMessage: {user_message} | Language: {detected_language} | Platforms: {platforms}\n\nClassify intent (one of): earnings_query | dispute_help | insurance_query |\nscheme_query | loan_query | greeting | unknown\n\nExtract entities: platform, time_period, amount (rupees), issue_type\n\nReturn JSON ONLY:\n\x7b\"intent\":\"string\",\"confidence\":0.0,\"entities\":\x7b\"platform\":\"?\",\"time_period\":\"?\",\"amount\":0,\"issue_type\":\"?\"\x7d\x7d\n"

/-- Embedded from src/lib/ai/prompts.py: the earnings-summary prompt
template `EARNINGS_PROMPT`. -/
def EARNINGS_PROMPT : String :=
  "\nYou are Saathi, a helpful friend for Indian gig workers.\nEarnings: {earnings_json} | Name: {name} | Language: {language}\n\nWrite a warm WhatsApp message (max 3 lines):\n1. State total earnings (₹ amount, Latin numerals only — ₹1,200 NOT ₹१,२००)\n2. Compare vs last period if available\n3. One actionable tip\n\nTone: casual friend, NOT corporate. No markdown. Simple Hindi. Platform names in English.\n"

/-- Embedded from src/lib/ai/prompts.py: the dispute-complaint prompt
template `DISPUTE_PROMPT`. -/
def DISPUTE_PROMPT : String :=
  "\nWrite a formal complaint for an Indian gig worker.\nName: {name} | Platform: {platform} | Issue: {issue_type}\nDescription: {user_description} | Date: {date}\n\nRequirements: professional + firm, cite specific dates/amounts, reference platform ToS,\nrequest specific action, include [PHONE] placeholder, max 200 words.\nLanguage: {language}. Output ONLY the complaint text.\n"

/-- Embedded from src/lib/ai/prompts.py: the fallback-response table
`FALLBACK_RESPONSES`, an association list in source key order. -/
def FALLBACK_RESPONSES : List (String × String) :=
  [ ("greeting", "Namaste! Main Saathi hoon. Thodi technical problem hai — thodi der mein try karein. 🙏"),
    ("earnings_query", "Income dekhne mein problem aa rahi hai. UPI screenshot bhejo."),
    ("dispute_help", "Platform ka naam aur kya hua — detail mein batao."),
    ("unknown", "Thoda aur detail mein batao — income, account ya koi aur cheez?") ]

/-- The closed Intent enumeration (spec §3; the seven labels also listed
inside INTENT_PROMPT). -/
inductive Intent where
  | earnings_query
  | dispute_help
  | insurance_query
  | scheme_query
  | loan_query
  | greeting
  | unknown
deriving DecidableEq, BEq, Repr

/-- The string key each Intent uses in templates and the fallback table. -/
def Intent.key : Intent → String
  | .earnings_query => "earnings_query"
  | .dispute_help => "dispute_help"
  | .insurance_query => "insurance_query"
  | .scheme_query => "scheme_query"
  | .loan_query => "loan_query"
  | .greeting => "greeting"
  | .unknown => "unknown"

/-- The seven intent label strings of the closed set. -/
def intentKeys : List String :=
  ["earnings_query", "dispute_help", "insurance_query", "scheme_query",
   "loan_query", "greeting", "unknown"]

/-- Modelled from the spec: the guaranteed `unknown` entry of the fallback
table (spec §3 FallbackTable). -/
def unknownFallback : String :=
  (FALLBACK_RESPONSES.lookup "unknown").getD ""

/-- Modelled from the spec: `FallbackResolver.resolve` (spec §4.4) — a pure
lookup into FALLBACK_RESPONSES by the string key of the intent, with the
`unknown` entry as the default for any intent lacking a dedicated entry. -/
def resolve (i : Intent) : String :=
  match FALLBACK_RESPONSES.lookup i.key with
  | some s => s
  | none => unknownFallback

/-- `leadsWith pat l` : the character list `pat` occurs at the start of `l`. -/
def leadsWith : List Char → List Char → Bool
  | [], _ => true
  | _ :: _, [] => false
  | a :: as, b :: bs => a == b && leadsWith as bs

/-- `listContains pat l` : the character list `pat` occurs (contiguously)
somewhere inside `l`. -/
def listContains (pat : List Char) : List Char → Bool
  | [] => leadsWith pat []
  | c :: t => leadsWith pat (c :: t) || listContains pat t

/-- `containsSubstr s pat` : the string `pat` occurs as a substring of `s`.
Used for the "simple presence checks" of the spec. -/
def containsSubstr (s pat : String) : Bool :=
  listContains pat.toList s.toList

/-- Fuel-driven worker for substring replacement: each step consumes at
least one character of the subject list, so fuel equal to the subject
length always suffices (the fuel-exhausted branch is then unreachable). -/
def replaceFuel (pat rep : List Char) : Nat → List Char → List Char
  | 0, l => l
  | _ + 1, [] => []
  | n + 1, c :: t =>
    if pat ≠ [] ∧ leadsWith pat (c :: t) then
      rep ++ replaceFuel pat rep n (List.drop (pat.length - 1) t)
    else
      c :: replaceFuel pat rep n t

/-- Replace every (leftmost, non-overlapping) occurrence of `pat` by `rep`
in a character list; an empty pattern replaces nothing. -/
def replaceAllL (pat rep l : List Char) : List Char :=
  replaceFuel pat rep l.length l

/-- Replace every occurrence of `pat` by `rep` in a string. -/
def strReplace (s pat rep : String) : String :=
  String.mk (replaceAllL pat.toList rep.toList s.toList)

/-- Modelled from the spec: a Template (spec §3) — a named text with its
fixed set of required placeholder variables.  No template documents a
default value for any variable (§6 lists only required variables), so the
model carries no defaults. -/
structure Template where
  text : String
  required : List String
deriving Repr

/-- The classification template with its three documented variables
(spec §6): `user_message`, `detected_language`, `platforms`. -/
def intentTemplate : Template :=
  ⟨INTENT_PROMPT, ["user_message", "detected_language", "platforms"]⟩

/-- Rendering-layer errors (spec §7). -/
inductive RenderError where
  | MissingVariable
  | InvalidVariableType
deriving DecidableEq, Repr

/-- Modelled from the spec: `PromptRenderer.render` (spec §4.1) — binds the
supplied variables into the template text, failing with `MissingVariable`
when a required placeholder has no supplied value (no variable has a
documented default).  Variables are supplied as already-textual values, so
`InvalidVariableType` cannot arise in this model. -/
def render (t : Template) (vars : List (String × String)) : Except RenderError String :=
  match t.required.find? (fun v => (vars.lookup v).isNone) with
  | some _ => .error .MissingVariable
  | none =>
      .ok (vars.foldl (fun acc kv => strReplace acc ("\x7b" ++ kv.1 ++ "\x7d") kv.2) t.text)

/-- Extracted entities (spec §3): fixed optional keys, with `none` as the
explicit "unknown" marker. -/
structure Entities where
  platform : Option String
  time_period : Option String
  amount : Option ℚ
  issue_type : Option String
deriving DecidableEq, Repr

/-- The all-unknown entity record. -/
def Entities.empty : Entities := ⟨none, none, none, none⟩

/-- A classification response that parsed as the documented JSON shape,
before validation: a raw intent string and a raw (unclamped) confidence. -/
structure RawClassification where
  intent : String
  confidence : ℚ
  entities : Entities
deriving DecidableEq, Repr

/-- Possible behaviours of the generative capability on the classification
call (spec §5, §6): unreachable/timed out, text that does not parse as the
documented JSON shape, or a parsed result. -/
inductive ClassGenOut where
  | unavailable
  | unparseable
  | parsed (r : RawClassification)
deriving DecidableEq, Repr

/-- Capability-layer errors (spec §7). -/
inductive CapError where
  | MalformedOutput
  | GenerationUnavailable
  | IncompleteComplaint
deriving DecidableEq, Repr

/-- A validated ClassificationResult (spec §3). -/
structure ClassificationResult where
  intent : Intent
  confidence : ℚ
  entities : Entities
deriving DecidableEq, Repr

/-- Modelled from the spec: coercion of the raw intent string onto the
closed set (spec §4.2 rule 2) — any string outside the seven labels maps
to `unknown`. -/
def coerceIntent (s : String) : Intent :=
  if s = "earnings_query" then .earnings_query
  else if s = "dispute_help" then .dispute_help
  else if s = "insurance_query" then .insurance_query
  else if s = "scheme_query" then .scheme_query
  else if s = "loan_query" then .loan_query
  else if s = "greeting" then .greeting
  else .unknown

/-- Modelled from the spec: clamping of the raw confidence into [0,1]
(spec §4.2 rule 3). -/
def clamp01 (q : ℚ) : ℚ := if q < 0 then 0 else if 1 < q then 1 else q

/-- Modelled from the spec: `IntentClassifier.classify` validation
(spec §4.2) applied to the response of the generative capability: unreachable
propagates as `GenerationUnavailable` (a timeout is treated identically,
§5), an unparseable response fails with `MalformedOutput`, and a parsed
response is coerced and clamped, never rejected. -/
def classify (g : ClassGenOut) : Except CapError ClassificationResult :=
  match g with
  | .unavailable => .error .GenerationUnavailable
  | .unparseable => .error .MalformedOutput
  | .parsed r => .ok ⟨coerceIntent r.intent, clamp01 r.confidence, r.entities⟩

/-- Intent-specific supporting data for the earnings path (spec §4.3, §6). -/
structure EarningsData where
  earnings_json : String
  name : String
  language : String
deriving DecidableEq, Repr

/-- Intent-specific supporting data for the dispute path (spec §4.3, §6). -/
structure DisputeData where
  name : String
  platform : String
  issue_type : String
  user_description : String
  date : String
  language : String
deriving DecidableEq, Repr

/-- Possible behaviours of the generative capability on a synthesis call:
unreachable/timed out, or free text. -/
inductive SynthGenOut where
  | unavailable
  | output (t : String)
deriving DecidableEq, Repr

/-- Modelled from the spec: the required-fact presence check of the dispute path
(spec §4.3): the rendered complaint must contain the supplied date string
and the supplied platform name. -/
def disputeFactsPresent (d : DisputeData) (t : String) : Bool :=
  containsSubstr t d.date && containsSubstr t d.platform

/-- Modelled from the spec: `ResponseSynthesizer.synthesize` (spec §4.3).
An unreachable capability fails with `GenerationUnavailable`; on the
dispute path the output is checked for the required referenced facts and
fails with `IncompleteComplaint` when one is absent.  Per the §9
open question, the numeral and tone constraints exist only as prompt
instructions (EARNINGS_PROMPT) with no enforcement code, so the earnings
path returns the generative output unchanged. -/
def synthesize (i : Intent) (ed : EarningsData) (dd : DisputeData)
    (gs : SynthGenOut) : Except CapError String :=
  match gs with
  | .unavailable => .error .GenerationUnavailable
  | .output t =>
    match i with
    | .dispute_help => if disputeFactsPresent dd t then .ok t else .error .IncompleteComplaint
    | _ => .ok t

/-- The routing decision out of the `Classified` state (spec §4.5). -/
inductive Route where
  | synthesizing
  | fallingBack (i : Intent)
deriving DecidableEq, Repr

/-- Modelled from the spec: the `Classified → Synthesizing` guard
(spec §4.5) — intent is neither `greeting` nor `unknown`, confidence is at
or above the configured floor, and supporting data is available. -/
def shouldSynthesize (c : ClassificationResult) (floor : ℚ) (dataAvailable : Bool) : Bool :=
  decide (c.intent ≠ Intent.greeting) && decide (c.intent ≠ Intent.unknown)
    && decide (floor ≤ c.confidence) && dataAvailable

/-- Modelled from the spec: the transition out of the `Classified` state
(spec §4.5): to `Synthesizing` when the guard holds, else directly to
`FallingBack` with the resolved intent. -/
def stepClassified (c : ClassificationResult) (floor : ℚ) (dataAvailable : Bool) : Route :=
  if shouldSynthesize c floor dataAvailable then .synthesizing else .fallingBack c.intent

/-- Modelled from the spec: the Pipeline (spec §4.5) for one inbound
message, parameterised by the behaviour of the generative capability on each of
the two calls.  Classification failure falls back with intent `unknown`;
a synthesizer failure falls back with the resolved intent; fallback always
delivers `resolve`. -/
def pipeline (gc : ClassGenOut) (floor : ℚ) (dataAvailable : Bool)
    (ed : EarningsData) (dd : DisputeData) (gs : SynthGenOut) : String :=
  match classify gc with
  | .error _ => resolve .unknown
  | .ok c =>
    match stepClassified c floor dataAvailable with
    | .synthesizing =>
      match synthesize c.intent ed dd gs with
      | .ok t => t
      | .error _ => resolve c.intent
    | .fallingBack i => resolve i

/-- Devanagari digit detection (U+0966 – U+096F), for the numeral-script
invariant. -/
def hasDevanagariDigit (s : String) : Bool :=
  s.toList.any (fun c => 0x966 ≤ c.toNat && c.toNat ≤ 0x96F)

/-
Theorems settling the claims.
-/

/-- C10: the fallback table contains exactly the four keys `greeting`,
`earnings_query`, `dispute_help`, `unknown`, in source order, and its four
response strings are all non-empty and pairwise distinct. -/
theorem fallback_table_invariants :
    FALLBACK_RESPONSES.map Prod.fst
      = ["greeting", "earnings_query", "dispute_help", "unknown"]
    ∧ (FALLBACK_RESPONSES.map Prod.snd).all (fun s => decide (s ≠ "")) = true
    ∧ (FALLBACK_RESPONSES.map Prod.snd).Nodup := by
  refine ⟨by decide, by decide, by decide⟩

/-- C3 counterexample: the fallback table key set is not the six Intent
values — `insurance_query`, `scheme_query` and `loan_query` have no
dedicated entry, and the table holds only four entries. -/
theorem fallback_six_keys_counterexample :
    FALLBACK_RESPONSES.lookup "insurance_query" = none
    ∧ FALLBACK_RESPONSES.lookup "scheme_query" = none
    ∧ FALLBACK_RESPONSES.lookup "loan_query" = none
    ∧ FALLBACK_RESPONSES.length = 4 := by
  refine ⟨by decide, by decide, by decide, by decide⟩

/-- C3 amended: the fallback table key set is exactly the four intent
strings `greeting`, `earnings_query`, `dispute_help`, `unknown`; the three
intents without a dedicated entry resolve to the `unknown` entry. -/
theorem fallback_table_keys_amended :
    FALLBACK_RESPONSES.map Prod.fst
      = ["greeting", "earnings_query", "dispute_help", "unknown"]
    ∧ resolve .insurance_query = resolve .unknown
    ∧ resolve .scheme_query = resolve .unknown
    ∧ resolve .loan_query = resolve .unknown := by
  refine ⟨by decide, by decide, by decide, by decide⟩

/-- C2: `resolve` is total — every one of the seven Intent values yields
one of the response strings of the table, and the three intents lacking a
dedicated entry (`insurance_query`, `scheme_query`, `loan_query`) yield
the `unknown` entry. -/
theorem resolve_total :
    (∀ i : Intent, resolve i ∈ FALLBACK_RESPONSES.map Prod.snd)
    ∧ resolve .insurance_query = unknownFallback
    ∧ resolve .scheme_query = unknownFallback
    ∧ resolve .loan_query = unknownFallback
    ∧ unknownFallback
        = "Thoda aur detail mein batao — income, account ya koi aur cheez?" := by
  refine ⟨fun i => ?_, by decide, by decide, by decide, by decide⟩
  cases i <;> decide

/-- C1: whenever the generative capability is unreachable or times out the
pipeline delivers exactly the fallback entry for the resolved intent: a
failed classification call delivers exactly the `unknown` fallback string,
and an unreachable synthesis call delivers the fallback entry of the
intent the classifier resolved. -/
theorem pipeline_unavailable_fallback (floor : ℚ) (d : Bool)
    (ed : EarningsData) (dd : DisputeData) (gs : SynthGenOut)
    (r : RawClassification) :
    pipeline .unavailable floor d ed dd gs
      = "Thoda aur detail mein batao — income, account ya koi aur cheez?"
    ∧ pipeline .unavailable floor d ed dd gs = resolve .unknown
    ∧ pipeline (.parsed r) floor d ed dd .unavailable
        = resolve (coerceIntent r.intent) := by
  refine ⟨by simp [pipeline, classify]; decide, by simp [pipeline, classify], ?_⟩
  simp only [pipeline, classify]
  cases h : stepClassified ⟨coerceIntent r.intent, clamp01 r.confidence, r.entities⟩ floor d with
  | synthesizing => simp [synthesize]
  | fallingBack i =>
    have : i = coerceIntent r.intent := by
      by_cases hb : shouldSynthesize ⟨coerceIntent r.intent, clamp01 r.confidence, r.entities⟩ floor d
      · simp [stepClassified, hb] at h
      · simp [stepClassified, hb] at h
        exact h.symm
    simp [this]

/-- C9: synthesis is never attempted for `greeting`, `unknown` or
low-confidence classifications — from the `Classified` state such messages
go directly to `FallingBack`, and `Synthesizing` is entered exactly when
the intent is neither `greeting` nor `unknown`, the confidence is at or
above the floor, and supporting data is available. -/
theorem synthesis_gating (c : ClassificationResult) (floor : ℚ) (d : Bool) :
    (stepClassified c floor d = .synthesizing
       ↔ (c.intent ≠ .greeting ∧ c.intent ≠ .unknown
            ∧ floor ≤ c.confidence ∧ d = true))
    ∧ ((c.intent = .greeting ∨ c.intent = .unknown ∨ c.confidence < floor)
       → stepClassified c floor d = .fallingBack c.intent) := by
  have hiff : shouldSynthesize c floor d = true
      ↔ (c.intent ≠ .greeting ∧ c.intent ≠ .unknown
           ∧ floor ≤ c.confidence ∧ d = true) := by
    simp [shouldSynthesize, and_assoc]
  have hstep : stepClassified c floor d = .synthesizing
      ↔ shouldSynthesize c floor d = true := by
    unfold stepClassified
    by_cases hb : shouldSynthesize c floor d = true
    · simp [hb]
    · simp [hb]
  constructor
  · exact hstep.trans hiff
  · intro h
    have hb : shouldSynthesize c floor d = false := by
      cases hb : shouldSynthesize c floor d with
      | false => rfl
      | true =>
        rcases hiff.mp hb with ⟨h1, h2, h3, _⟩
        rcases h with h | h | h
        · exact absurd h h1
        · exact absurd h h2
        · exact absurd h3 (not_le.mpr h)
    simp [stepClassified, hb]

/-- C9 witness: a greeting classification at confidence 9/10 with the floor
at 1/2 and data available routes directly to `FallingBack`. -/
theorem synthesis_gating_witness :
    stepClassified ⟨Intent.greeting, 9/10, Entities.empty⟩ (1/2) true
      = Route.fallingBack Intent.greeting :=
  (synthesis_gating ⟨Intent.greeting, 9/10, Entities.empty⟩ (1/2) true).2
    (Or.inl rfl)

/-- C6: a parsed classification whose intent string is outside the closed
set of seven labels is coerced to `unknown` and still succeeds, while
`MalformedOutput` is reserved for output that does not parse as the
documented JSON shape. -/
theorem intent_coercion (r : RawClassification) (h : r.intent ∉ intentKeys) :
    (∃ c, classify (.parsed r) = .ok c ∧ c.intent = .unknown)
    ∧ classify .unparseable = .error .MalformedOutput := by
  have h1 : coerceIntent r.intent = .unknown := by
    simp only [intentKeys, List.mem_cons, List.not_mem_nil, or_false,
      not_or] at h
    obtain ⟨h1, h2, h3, h4, h5, h6, h7⟩ := h
    simp [coerceIntent, h1, h2, h3, h4, h5, h6, h7]
  exact ⟨⟨⟨.unknown, clamp01 r.confidence, r.entities⟩,
    by simp [classify, h1], rfl⟩, rfl⟩

/-- C6 witness: the out-of-set intent string "gibberish" resolves to
`unknown` without failing. -/
theorem intent_coercion_witness :
    (∃ c, classify (.parsed ⟨"gibberish", 3, Entities.empty⟩) = .ok c
       ∧ c.intent = .unknown)
    ∧ classify .unparseable = .error .MalformedOutput :=
  intent_coercion ⟨"gibberish", 3, Entities.empty⟩ (by decide)

/-- C7: every successful classification carries a confidence within
[0, 1] — the raw value is clamped, never rejected. -/
theorem confidence_clamped (g : ClassGenOut) (c : ClassificationResult)
    (h : classify g = .ok c) :
    0 ≤ c.confidence ∧ c.confidence ≤ 1 := by
  cases g with
  | unavailable => simp [classify] at h
  | unparseable => simp [classify] at h
  | parsed r =>
    simp only [classify, Except.ok.injEq] at h
    subst h
    show 0 ≤ clamp01 r.confidence ∧ clamp01 r.confidence ≤ 1
    simp only [clamp01]
    split_ifs with h1 h2
    · exact ⟨le_refl 0, by norm_num⟩
    · exact ⟨by norm_num, le_refl 1⟩
    · exact ⟨le_of_not_lt h1, le_of_not_lt h2⟩

/-- C7 witness: a raw confidence of 3 is clamped into [0, 1]. -/
theorem confidence_clamped_witness :
    0 ≤ clamp01 3 ∧ clamp01 3 ≤ 1 :=
  confidence_clamped (.parsed ⟨"x", 3, Entities.empty⟩)
    ⟨Intent.unknown, clamp01 3, Entities.empty⟩ (by simp [classify, coerceIntent])

/-- C8: rendering fails with `MissingVariable` exactly when some required
placeholder has no supplied value (no variable documents a default), and
rendering the classification template with its three documented variables
supplied succeeds, returning the template text with all three placeholders
bound. -/
theorem render_missing_variable (t : Template) (vars : List (String × String)) :
    (render t vars = .error .MissingVariable
       ↔ ∃ v ∈ t.required, vars.lookup v = none)
    ∧ ∀ um dl pf : String,
        render intentTemplate
            [("user_message", um), ("detected_language", dl), ("platforms", pf)]
          = .ok (strReplace (strReplace (strReplace INTENT_PROMPT
              "\x7buser_message\x7d" um) "\x7bdetected_language\x7d" dl)
              "\x7bplatforms\x7d" pf) := by
  constructor
  · unfold render
    cases hf : t.required.find? (fun v => (vars.lookup v).isNone) with
    | none =>
      simp only [reduceCtorEq, false_iff]
      rintro ⟨v, hv, hl⟩
      have := List.find?_eq_none.mp hf v hv
      simp [hl] at this
    | some v =>
      simp only [true_iff]
      refine ⟨v, List.mem_of_find?_eq_some hf, ?_⟩
      have hp := List.find?_some hf
      simpa using hp
  · intro um dl pf
    rfl

/-- C5: dispute synthesis fails with `IncompleteComplaint` exactly when a
required referenced fact fails its presence check; in particular an output
omitting the supplied date string fails, after which the pipeline delivers
the `dispute_help` fallback entry. -/
theorem dispute_incomplete_fallback (ed : EarningsData) (dd : DisputeData)
    (t : String) (r : RawClassification) (floor : ℚ)
    (hdate : containsSubstr t dd.date = false)
    (hintent : coerceIntent r.intent = .dispute_help)
    (hconf : floor ≤ clamp01 r.confidence) :
    synthesize .dispute_help ed dd (.output t) = .error .IncompleteComplaint
    ∧ pipeline (.parsed r) floor true ed dd (.output t)
        = "Platform ka naam aur kya hua — detail mein batao."
    ∧ (∀ t2, synthesize .dispute_help ed dd (.output t2)
         = .error .IncompleteComplaint ↔ disputeFactsPresent dd t2 = false) := by
  have hfalse : disputeFactsPresent dd t = false := by
    simp [disputeFactsPresent, hdate]
  have hsynth : synthesize .dispute_help ed dd (.output t)
      = .error .IncompleteComplaint := by
    simp [synthesize, hfalse]
  refine ⟨hsynth, ?_, ?_⟩
  · have hguard : shouldSynthesize
        ⟨Intent.dispute_help, clamp01 r.confidence, r.entities⟩ floor true
        = true := by
      simp [shouldSynthesize, hconf]
    have hstep : stepClassified
        ⟨Intent.dispute_help, clamp01 r.confidence, r.entities⟩ floor true
        = Route.synthesizing := by
      unfold stepClassified
      rw [hguard]
      simp
    simp only [pipeline, classify, hintent, hstep, hsynth]
    decide
  · intro t2
    unfold synthesize
    by_cases hp : disputeFactsPresent dd t2 = true
    · simp [hp]
    · simp [hp]

/-- C5 witness: a complaint text naming the platform but omitting the
supplied date fails with `IncompleteComplaint`, and the pipeline delivers
the `dispute_help` fallback string. -/
theorem dispute_incomplete_fallback_witness :
    synthesize .dispute_help ⟨"e", "Ravi", "hi"⟩
        ⟨"Ravi", "Zomato", "payment", "payout missing", "12 March 2025", "hi"⟩
        (.output "Formal complaint regarding the Zomato payout.")
      = .error .IncompleteComplaint
    ∧ pipeline (.parsed ⟨"dispute_help", 9/10, Entities.empty⟩) (1/2) true
        ⟨"e", "Ravi", "hi"⟩
        ⟨"Ravi", "Zomato", "payment", "payout missing", "12 March 2025", "hi"⟩
        (.output "Formal complaint regarding the Zomato payout.")
        = "Platform ka naam aur kya hua — detail mein batao." :=
  ⟨(dispute_incomplete_fallback ⟨"e", "Ravi", "hi"⟩
      ⟨"Ravi", "Zomato", "payment", "payout missing", "12 March 2025", "hi"⟩
      "Formal complaint regarding the Zomato payout."
      ⟨"dispute_help", 9/10, Entities.empty⟩ (1/2)
      (by decide) (by decide) (by norm_num [clamp01])).1,
   (dispute_incomplete_fallback ⟨"e", "Ravi", "hi"⟩
      ⟨"Ravi", "Zomato", "payment", "payout missing", "12 March 2025", "hi"⟩
      "Formal complaint regarding the Zomato payout."
      ⟨"dispute_help", 9/10, Entities.empty⟩ (1/2)
      (by decide) (by decide) (by norm_num [clamp01])).2.1⟩

/-- C4 counterexample: the synthesizer applies no numeral rewriting — a
generative earnings reply written with Devanagari numerals is delivered
unchanged by both the synthesizer and the full pipeline, so a rupee amount
can reach the user in the native numeral script. -/
theorem numeral_passthrough_counterexample :
    synthesize .earnings_query ⟨"1200", "Ravi", "hi"⟩
        ⟨"", "", "", "", "", ""⟩ (.output "Aaj aapne ₹१,२०० kamaye!")
      = .ok "Aaj aapne ₹१,२०० kamaye!"
    ∧ hasDevanagariDigit "Aaj aapne ₹१,२०० kamaye!" = true
    ∧ pipeline (.parsed ⟨"earnings_query", 2, Entities.empty⟩) 0 true
        ⟨"1200", "Ravi", "hi"⟩ ⟨"", "", "", "", "", ""⟩
        (.output "Aaj aapne ₹१,२०० kamaye!")
        = "Aaj aapne ₹१,२०० kamaye!" := by
  refine ⟨rfl, by decide, ?_⟩
  have hcoerce : coerceIntent "earnings_query" = Intent.earnings_query := rfl
  have hguard : shouldSynthesize
      ⟨Intent.earnings_query, clamp01 2, Entities.empty⟩ 0 true = true := by
    simp [shouldSynthesize]
    norm_num [clamp01]
  have hstep : stepClassified
      ⟨Intent.earnings_query, clamp01 2, Entities.empty⟩ 0 true
      = Route.synthesizing := by
    unfold stepClassified
    rw [hguard]
    simp
  simp only [pipeline, classify, hcoerce, hstep, synthesize]

set_option maxRecDepth 8000 in
/-- C4 amended: the Latin-numeral requirement exists only as a prompt
instruction inside EARNINGS_PROMPT; no post-validation or rewriting pass
exists, and the earnings synthesizer returns the generative output
unchanged. -/
theorem numeral_prompt_only_amended :
    containsSubstr EARNINGS_PROMPT "Latin numerals only — ₹1,200 NOT ₹१,२००"
      = true
    ∧ ∀ (t : String) (ed : EarningsData) (dd : DisputeData),
        synthesize .earnings_query ed dd (.output t) = .ok t := by
  exact ⟨by decide, fun t ed dd => rfl⟩

end AiSaathi
